import Mathlib

/-!
Shallow embedding of the AI-driver memory-pool allocator and its IOCTL
dispatch layer (src/kernel-extensions/windows/ai_driver/gpu_integration.c,
ioctl_handlers.c, ai_driver_ioctl.c).

Machine integers (ULONG64 / UINT64) are modelled as `Nat` with explicit
reduction modulo 2^64 at every arithmetic step the C source performs on
64-bit values.  The FLOAT field `FragmentationRatio` only ever stores
values of the form k / 4096 with 0 ≤ k < 4096 (and 0.0 = 0 / 4096):
every such value is exactly representable in IEEE binary32, the
ULONG→FLOAT conversion of k < 2^24 is exact, and division by the power
of two 4096.0f is exact and injective on these numerators.  The field is
therefore modelled exactly by its numerator k (a `Nat`); the rational
value it denotes is recovered by `DriverState.fragRatioQ`.
-/

/-- `AI_MEMORY_POOL_SIZE` from gpu_integration.c: 256 * 1024 * 1024. -/
def AI_MEMORY_POOL_SIZE : Nat := 256 * 1024 * 1024

/-- 2^64, the modulus of ULONG64 / UINT64 arithmetic. -/
def U64MOD : Nat := 2 ^ 64

/-- 64-bit wrapping addition, as performed by the C source on ULONG64. -/
def add64 (a b : Nat) : Nat := (a + b) % U64MOD

/-- 64-bit wrapping subtraction (for operands already reduced mod 2^64). -/
def sub64 (a b : Nat) : Nat := (a + U64MOD - b % U64MOD) % U64MOD

/-- The NTSTATUS values returned by the code under study. -/
inductive NTStatus where
  | STATUS_SUCCESS
  | STATUS_INVALID_PARAMETER
  | STATUS_INSUFFICIENT_RESOURCES
  | STATUS_NOT_FOUND
  | STATUS_BUFFER_TOO_SMALL
  | STATUS_NOT_IMPLEMENTED
  | STATUS_INVALID_DEVICE_REQUEST
deriving DecidableEq, Repr

open NTStatus

/-- `NT_SUCCESS(status)`: among the statuses the driver produces, only
`STATUS_SUCCESS` is a success code (all the others have severity Error
or Warning, i.e. the high bit set / status < 0). -/
def NT_SUCCESS : NTStatus → Bool
  | STATUS_SUCCESS => true
  | _ => false

/-- `PINNED_MEMORY_ENTRY` (gpu_integration.c): one node of
`g_PinnedMemoryList`.  `Address` and `KernelAddress` both hold the pool
buffer address; `Mdl` holds the MDL pointer.  Pointers are modelled as
`Nat`, with 0 standing for NULL. -/
structure PINNED_MEMORY_ENTRY where
  Address : Nat
  Size : Nat
  KernelAddress : Nat
  Mdl : Nat
deriving DecidableEq, Repr

/-- The driver's pool-related global state: the `g_PinnedMemoryList`
entries in Flink (insertion) order, the `g_MemoryPoolStatus` fields, and
the `g_PinnedMemoryInitialized` flag.  `BlockCount` of the status struct
is never stored for the pool (it is recomputed into the caller's output
buffer by GetMemoryPoolStatus), so it is not part of the state. -/
structure DriverState where
  records : List PINNED_MEMORY_ENTRY
  TotalSize : Nat
  UsedSize : Nat
  FreeSize : Nat
  /-- Numerator k of the exactly-stored binary32 value k / 4096. -/
  FragmentationRatio : Nat
  pinnedInitialized : Bool
deriving DecidableEq, Repr

/-- The rational value denoted by the stored `FragmentationRatio`
numerator (the FLOAT holds exactly this value, see the header note). -/
def DriverState.fragRatioQ (s : DriverState) : ℚ :=
  (s.FragmentationRatio : ℚ) / 4096

/-- State after `InitializePinnedMemory` / `InitializeGpuStats`:
empty list, `TotalSize = AI_MEMORY_POOL_SIZE`, `UsedSize = 0`,
`FreeSize = AI_MEMORY_POOL_SIZE`, `FragmentationRatio = 0`. -/
def initState : DriverState :=
  { records := []
    TotalSize := AI_MEMORY_POOL_SIZE
    UsedSize := 0
    FreeSize := AI_MEMORY_POOL_SIZE
    FragmentationRatio := 0
    pinnedInitialized := true }

/-- Environment supplied by the kernel allocators during one
`AllocatePinnedMemory` call: the results of `ExAllocatePoolWithTag` for
the buffer, `IoAllocateMdl`, and `ExAllocatePoolWithTag` for the list
entry.  A value of 0 is NULL, i.e. that allocation failed. -/
structure AllocEnv where
  bufferAddr : Nat
  mdlPtr : Nat
  entryPtr : Nat
deriving DecidableEq, Repr

/-- `AllocatePinnedMemory(Size, Address)` from gpu_integration.c.
`addressNull` models `Address == NULL`.  Returns the status, the value
written through `Address` (only written on success), and the new global
state. -/
def AllocatePinnedMemory (env : AllocEnv) (Size : Nat) (addressNull : Bool)
    (s : DriverState) : NTStatus × Option Nat × DriverState :=
  if addressNull ∨ Size = 0 ∨ Size > AI_MEMORY_POOL_SIZE then
    (STATUS_INVALID_PARAMETER, none, s)
  else if add64 s.UsedSize Size > AI_MEMORY_POOL_SIZE then
    (STATUS_INSUFFICIENT_RESOURCES, none, s)
  else if env.bufferAddr = 0 then
    (STATUS_INSUFFICIENT_RESOURCES, none, s)
  else if env.mdlPtr = 0 then
    (STATUS_INSUFFICIENT_RESOURCES, none, s)
  else if env.entryPtr = 0 then
    (STATUS_INSUFFICIENT_RESOURCES, none, s)
  else
    let newUsed := add64 s.UsedSize Size
    (STATUS_SUCCESS, some env.bufferAddr,
      { s with
        records := s.records ++ [⟨env.bufferAddr, Size, env.bufferAddr, env.mdlPtr⟩]
        UsedSize := newUsed
        FreeSize := sub64 s.TotalSize newUsed
        FragmentationRatio := newUsed % 4096 })

/-- The `Flink` scan of `FreePinnedMemory`: find the first entry whose
`Address` matches, remove it, and return it with the remaining list. -/
def removeFirst (addr : Nat) : List PINNED_MEMORY_ENTRY →
    Option (PINNED_MEMORY_ENTRY × List PINNED_MEMORY_ENTRY)
  | [] => none
  | e :: rest =>
    if e.Address = addr then some (e, rest)
    else
      match removeFirst addr rest with
      | none => none
      | some (f, rest') => some (f, e :: rest')

/-- `FreePinnedMemory(Address)` from gpu_integration.c. -/
def FreePinnedMemory (Address : Nat) (s : DriverState) : NTStatus × DriverState :=
  if Address = 0 then (STATUS_INVALID_PARAMETER, s)
  else
    match removeFirst Address s.records with
    | none => (STATUS_NOT_FOUND, s)
    | some (e, rest) =>
      let newUsed := sub64 s.UsedSize e.Size
      (STATUS_SUCCESS,
        { s with
          records := rest
          UsedSize := newUsed
          FreeSize := sub64 s.TotalSize newUsed
          FragmentationRatio :=
            if newUsed > 0 then newUsed % 4096 else 0 })

/-- `CleanupPinnedMemory` from gpu_integration.c: early-out when not
initialized, otherwise drain the list, reset the pool counters, and
clear the initialized flag. -/
def CleanupPinnedMemory (s : DriverState) : DriverState :=
  if s.pinnedInitialized = false then s
  else
    { s with
      records := []
      UsedSize := 0
      FreeSize := s.TotalSize
      FragmentationRatio := 0
      pinnedInitialized := false }

/-- `GetMemoryPoolStatus(OutputBuffer, OutputBufferLength)` from
gpu_integration.c: validates the buffer and copies the pool status out;
it never mutates the pool state.  `sizeof(MEMORY_POOL_STATUS)` there is
32 (3×ULONG64 + ULONG + FLOAT, natural alignment, no padding needed). -/
def GetMemoryPoolStatus (bufferNull : Bool) (OutputBufferLength : Nat) : NTStatus :=
  if bufferNull ∨ OutputBufferLength < 32 then STATUS_INVALID_PARAMETER
  else STATUS_SUCCESS

/-- `GetGpuStatus(OutputBuffer, OutputBufferLength)` from
gpu_integration.c, restricted to its status behaviour: the GPU_STATUS
struct there is unpacked, so `sizeof(GPU_STATUS)` is 32 (FLOAT, pad,
2×ULONG64, FLOAT, pad); after the buffer check it always succeeds.  It
only writes telemetry caches, never the pool state. -/
def GetGpuStatus (bufferNull : Bool) (OutputBufferLength : Nat) : NTStatus :=
  if bufferNull ∨ OutputBufferLength < 32 then STATUS_INVALID_PARAMETER
  else STATUS_SUCCESS

/-- `GetSchedulerStats(OutputBuffer, OutputBufferLength)` from
gpu_integration.c: `sizeof(SCHEDULER_STATS)` is 12 (2×ULONG + FLOAT);
after the buffer check it always succeeds, touching only telemetry
globals. -/
def GetSchedulerStats (bufferNull : Bool) (OutputBufferLength : Nat) : NTStatus :=
  if bufferNull ∨ OutputBufferLength < 12 then STATUS_INVALID_PARAMETER
  else STATUS_SUCCESS

/-- Sum of the `Size` fields of the live entries — the quantity the spec
relates to `UsedSize`. -/
def sumSizes (l : List PINNED_MEMORY_ENTRY) : Nat :=
  (l.map PINNED_MEMORY_ENTRY.Size).sum

/-- One METHOD_BUFFERED DeviceIoControl request as the handlers in
ioctl_handlers.c see it: the shared system buffer (input and output are
the same pointer), its declared lengths, and the UINT64 at offset 0 of
the input payload (the only input field any handler reads). -/
structure IoRequest where
  /-- `Irp->AssociatedIrp.SystemBuffer == NULL`. -/
  bufferNull : Bool
  InputBufferLength : Nat
  OutputBufferLength : Nat
  /-- `*(PUINT64)inputBuffer`, meaningful when the buffer is present. -/
  inputU64 : Nat
deriving DecidableEq, Repr

/-- `HandleGetGpuStatus` (ioctl_handlers.c).  The packed GPU_STATUS of
that file has sizeof 24 (FLOAT + 2×UINT64 + FLOAT, `#pragma pack(1)`).
Returns (status, `Irp->IoStatus.Information`, state); the pool state is
never touched. -/
def HandleGetGpuStatus (irpNull : Bool) (req : IoRequest) (s : DriverState) :
    NTStatus × Nat × DriverState :=
  if irpNull then (STATUS_INVALID_PARAMETER, 0, s)
  else if req.OutputBufferLength < 24 then (STATUS_BUFFER_TOO_SMALL, 0, s)
  else if req.bufferNull then (STATUS_INVALID_PARAMETER, 0, s)
  else
    let st := GetGpuStatus req.bufferNull req.OutputBufferLength
    if NT_SUCCESS st then (STATUS_SUCCESS, 24, s) else (st, 0, s)

/-- `HandleGetMemoryPool` (ioctl_handlers.c).  The packed
MEMORY_POOL_STATUS has sizeof 32 (3×UINT64 + UINT32 + FLOAT). -/
def HandleGetMemoryPool (irpNull : Bool) (req : IoRequest) (s : DriverState) :
    NTStatus × Nat × DriverState :=
  if irpNull then (STATUS_INVALID_PARAMETER, 0, s)
  else if req.OutputBufferLength < 32 then (STATUS_BUFFER_TOO_SMALL, 0, s)
  else if req.bufferNull then (STATUS_INVALID_PARAMETER, 0, s)
  else
    let st := GetMemoryPoolStatus req.bufferNull req.OutputBufferLength
    if NT_SUCCESS st then (STATUS_SUCCESS, 32, s) else (st, 0, s)

/-- `HandleGetSchedulerStats` (ioctl_handlers.c).  The packed
SCHEDULER_STATS has sizeof 12 (2×UINT32 + FLOAT). -/
def HandleGetSchedulerStats (irpNull : Bool) (req : IoRequest) (s : DriverState) :
    NTStatus × Nat × DriverState :=
  if irpNull then (STATUS_INVALID_PARAMETER, 0, s)
  else if req.OutputBufferLength < 12 then (STATUS_BUFFER_TOO_SMALL, 0, s)
  else if req.bufferNull then (STATUS_INVALID_PARAMETER, 0, s)
  else
    let st := GetSchedulerStats req.bufferNull req.OutputBufferLength
    if NT_SUCCESS st then (STATUS_SUCCESS, 12, s) else (st, 0, s)

/-- `HandleAllocPinned` (ioctl_handlers.c).  Input and output are the
same system buffer; both declared lengths must hold a UINT64. -/
def HandleAllocPinned (irpNull : Bool) (env : AllocEnv) (req : IoRequest)
    (s : DriverState) : NTStatus × Nat × DriverState :=
  if irpNull then (STATUS_INVALID_PARAMETER, 0, s)
  else if req.InputBufferLength < 8 ∨ req.OutputBufferLength < 8 then
    (STATUS_INVALID_PARAMETER, 0, s)
  else if req.bufferNull then (STATUS_INVALID_PARAMETER, 0, s)
  else if req.inputU64 = 0 then (STATUS_INVALID_PARAMETER, 0, s)
  else
    match AllocatePinnedMemory env req.inputU64 false s with
    | (st, _, s') => if NT_SUCCESS st then (STATUS_SUCCESS, 8, s') else (st, 0, s')

/-- `HandleFreePinned` (ioctl_handlers.c).  Note that even on success
the handler reports `Information = 0` (FreePinned has no output). -/
def HandleFreePinned (irpNull : Bool) (req : IoRequest) (s : DriverState) :
    NTStatus × Nat × DriverState :=
  if irpNull then (STATUS_INVALID_PARAMETER, 0, s)
  else if req.InputBufferLength < 8 then (STATUS_INVALID_PARAMETER, 0, s)
  else if req.bufferNull then (STATUS_INVALID_PARAMETER, 0, s)
  else if req.inputU64 = 0 then (STATUS_INVALID_PARAMETER, 0, s)
  else
    match FreePinnedMemory req.inputU64 s with
    | (st, s') => (st, 0, s')

/-- The WDK `CTL_CODE` macro:
`(DeviceType << 16) | (Access << 14) | (Function << 2) | Method`. -/
def CTL_CODE (DeviceType Function Method Access : Nat) : Nat :=
  (DeviceType <<< 16) ||| (Access <<< 14) ||| (Function <<< 2) ||| Method

/-- `FILE_DEVICE_UNKNOWN` = 0x22. -/
def FILE_DEVICE_UNKNOWN : Nat := 0x22

/-- `METHOD_BUFFERED` = 0. -/
def METHOD_BUFFERED : Nat := 0

/-- `FILE_ANY_ACCESS` = 0. -/
def FILE_ANY_ACCESS : Nat := 0

/-- `IOCTL_AI_GET_STATS` (ai_driver_ioctl.c, function 0x800, legacy). -/
def IOCTL_AI_GET_STATS : Nat :=
  CTL_CODE FILE_DEVICE_UNKNOWN 0x800 METHOD_BUFFERED FILE_ANY_ACCESS

/-- `IOCTL_AI_SET_GPU_UTIL` (function 0x801, legacy). -/
def IOCTL_AI_SET_GPU_UTIL : Nat :=
  CTL_CODE FILE_DEVICE_UNKNOWN 0x801 METHOD_BUFFERED FILE_ANY_ACCESS

/-- `IOCTL_AI_BOOST_PRIORITY` (function 0x802, legacy). -/
def IOCTL_AI_BOOST_PRIORITY : Nat :=
  CTL_CODE FILE_DEVICE_UNKNOWN 0x802 METHOD_BUFFERED FILE_ANY_ACCESS

/-- `IOCTL_AI_GET_GPU_STATUS` (function 0x803). -/
def IOCTL_AI_GET_GPU_STATUS : Nat :=
  CTL_CODE FILE_DEVICE_UNKNOWN 0x803 METHOD_BUFFERED FILE_ANY_ACCESS

/-- `IOCTL_AI_GET_MEMORY_POOL` (function 0x804). -/
def IOCTL_AI_GET_MEMORY_POOL : Nat :=
  CTL_CODE FILE_DEVICE_UNKNOWN 0x804 METHOD_BUFFERED FILE_ANY_ACCESS

/-- `IOCTL_AI_GET_SCHEDULER_STATS` (function 0x805). -/
def IOCTL_AI_GET_SCHEDULER_STATS : Nat :=
  CTL_CODE FILE_DEVICE_UNKNOWN 0x805 METHOD_BUFFERED FILE_ANY_ACCESS

/-- `IOCTL_AI_ALLOC_PINNED` (function 0x806). -/
def IOCTL_AI_ALLOC_PINNED : Nat :=
  CTL_CODE FILE_DEVICE_UNKNOWN 0x806 METHOD_BUFFERED FILE_ANY_ACCESS

/-- `IOCTL_AI_FREE_PINNED` (function 0x807). -/
def IOCTL_AI_FREE_PINNED : Nat :=
  CTL_CODE FILE_DEVICE_UNKNOWN 0x807 METHOD_BUFFERED FILE_ANY_ACCESS

/-- The fixed command table of ai_driver_ioctl.c: every IOCTL code with
a `case` in the dispatcher switch. -/
def knownIoctlCodes : List Nat :=
  [IOCTL_AI_GET_STATS, IOCTL_AI_SET_GPU_UTIL, IOCTL_AI_BOOST_PRIORITY,
   IOCTL_AI_GET_GPU_STATUS, IOCTL_AI_GET_MEMORY_POOL,
   IOCTL_AI_GET_SCHEDULER_STATS, IOCTL_AI_ALLOC_PINNED, IOCTL_AI_FREE_PINNED]

/-- `AiDriverEvtIoDeviceControl` (ai_driver_ioctl.c): WDF plumbing
checks (`deviceNull` models `WdfIoQueueGetDevice` returning NULL,
`irpNull` models `WdfRequestWdmGetIrp` returning NULL), then the switch
on the IOCTL code.  The handlers are invoked with a non-NULL IRP.
Returns the completion status, the completion information (bytes
written), and the resulting driver state. -/
def AiDriverEvtIoDeviceControl (deviceNull irpNull : Bool) (env : AllocEnv)
    (IoControlCode : Nat) (req : IoRequest) (s : DriverState) :
    NTStatus × Nat × DriverState :=
  if deviceNull then (STATUS_INVALID_DEVICE_REQUEST, 0, s)
  else if irpNull then (STATUS_INVALID_PARAMETER, 0, s)
  else if IoControlCode = IOCTL_AI_GET_GPU_STATUS then
    HandleGetGpuStatus false req s
  else if IoControlCode = IOCTL_AI_GET_MEMORY_POOL then
    HandleGetMemoryPool false req s
  else if IoControlCode = IOCTL_AI_GET_SCHEDULER_STATS then
    HandleGetSchedulerStats false req s
  else if IoControlCode = IOCTL_AI_ALLOC_PINNED then
    HandleAllocPinned false env req s
  else if IoControlCode = IOCTL_AI_FREE_PINNED then
    HandleFreePinned false req s
  else if IoControlCode = IOCTL_AI_GET_STATS then
    (STATUS_NOT_IMPLEMENTED, 0, s)
  else if IoControlCode = IOCTL_AI_SET_GPU_UTIL then
    (STATUS_NOT_IMPLEMENTED, 0, s)
  else if IoControlCode = IOCTL_AI_BOOST_PRIORITY then
    (STATUS_NOT_IMPLEMENTED, 0, s)
  else
    (STATUS_INVALID_DEVICE_REQUEST, 0, s)

/-- States reachable from the freshly initialized pool by any sequence
of Allocate, Free, Stats and Shutdown operations (the Stats commands
never mutate the pool state, so their step is the identity). -/
inductive Reachable : DriverState → Prop where
  | init : Reachable initState
  | alloc (env : AllocEnv) (Size : Nat) (addressNull : Bool) (s : DriverState) :
      Reachable s → Reachable (AllocatePinnedMemory env Size addressNull s).2.2
  | free (Address : Nat) (s : DriverState) :
      Reachable s → Reachable (FreePinnedMemory Address s).2
  | stats (s : DriverState) : Reachable s → Reachable s
  | shutdown (s : DriverState) : Reachable s → Reachable (CleanupPinnedMemory s)

/-- A concrete state with one live allocation: the result of a single
successful 1-byte Allocate (handle 5) on the fresh pool.  Used as a
concrete input by several witnesses. -/
def sampleBusyState : DriverState :=
  (AllocatePinnedMemory ⟨5, 6, 7⟩ 1 false initState).2.2

/-- The quiescent-state invariant maintained by every operation: the
live entry sizes sum to `UsedSize`, `UsedSize` never exceeds the fixed
capacity, and `TotalSize` stays at its initialization value. -/
def PoolInv (s : DriverState) : Prop :=
  sumSizes s.records = s.UsedSize ∧
  s.UsedSize ≤ AI_MEMORY_POOL_SIZE ∧
  s.TotalSize = AI_MEMORY_POOL_SIZE

/-! ### Fine-grained concurrency model of AllocatePinnedMemory

The source serializes only two fragments of `AllocatePinnedMemory`: the
`InsertTailList` under `g_PinnedMemoryLock` (lines 445-447) and the
stats update under `g_StatsLock` (lines 449-454).  The parameter checks
and the capacity test (lines 408-414) read `g_MemoryPoolStatus.UsedSize`
WITHOUT holding any lock, and the backing acquisitions (lines 416-438)
touch no pool state.  A thread is therefore modelled as four atomic
actions at exactly those boundaries. -/

/-- Program counter of one in-flight `AllocatePinnedMemory` call. -/
inductive TPC where
  /-- About to run the parameter checks and the unsynchronized read of
  `UsedSize` in the capacity test (lines 408-414). -/
  | validate
  /-- About to run the backing acquisitions (buffer, MDL, list entry;
  lines 416-438), which read and write no pool state. -/
  | acquire
  /-- About to run the `g_PinnedMemoryLock` critical section
  (`InsertTailList`, lines 445-447). -/
  | insertEntry
  /-- About to run the `g_StatsLock` critical section
  (`UsedSize += Size` etc., lines 449-454). -/
  | updateStats
  /-- Returned with the given status. -/
  | done (st : NTStatus)
deriving DecidableEq, Repr

/-- One thread running `AllocatePinnedMemory(Size, &addr)` with its own
backing-allocator environment (the `Address` out-pointer of each caller
is a valid stack location). -/
structure AllocThread where
  pc : TPC
  Size : Nat
  env : AllocEnv
deriving DecidableEq, Repr

/-- All three backing acquisitions of one call succeed (non-NULL). -/
def goodEnv (e : AllocEnv) : Prop :=
  e.bufferAddr ≠ 0 ∧ e.mdlPtr ≠ 0 ∧ e.entryPtr ≠ 0

instance (e : AllocEnv) : Decidable (goodEnv e) := by
  unfold goodEnv
  infer_instance

/-- One atomic action of a thread against the shared pool state,
following `AllocatePinnedMemory` line by line at the synchronization
granularity described above. -/
def stepThread (s : DriverState) (t : AllocThread) : DriverState × AllocThread :=
  match t.pc with
  | TPC.validate =>
    if t.Size = 0 ∨ t.Size > AI_MEMORY_POOL_SIZE then
      (s, { t with pc := TPC.done STATUS_INVALID_PARAMETER })
    else if add64 s.UsedSize t.Size > AI_MEMORY_POOL_SIZE then
      (s, { t with pc := TPC.done STATUS_INSUFFICIENT_RESOURCES })
    else (s, { t with pc := TPC.acquire })
  | TPC.acquire =>
    if t.env.bufferAddr = 0 ∨ t.env.mdlPtr = 0 ∨ t.env.entryPtr = 0 then
      (s, { t with pc := TPC.done STATUS_INSUFFICIENT_RESOURCES })
    else (s, { t with pc := TPC.insertEntry })
  | TPC.insertEntry =>
    ({ s with records :=
        s.records ++ [⟨t.env.bufferAddr, t.Size, t.env.bufferAddr, t.env.mdlPtr⟩] },
     { t with pc := TPC.updateStats })
  | TPC.updateStats =>
    let newUsed := add64 s.UsedSize t.Size
    ({ s with
        UsedSize := newUsed
        FreeSize := sub64 s.TotalSize newUsed
        FragmentationRatio := newUsed % 4096 },
     { t with pc := TPC.done STATUS_SUCCESS })
  | TPC.done _ => (s, t)

/-- Run the next atomic action of thread `i` (no-op on an out-of-range
index; a finished thread steps to itself). -/
def schedStep (c : DriverState × List AllocThread) (i : Nat) :
    DriverState × List AllocThread :=
  match c.2[i]? with
  | none => c
  | some t =>
    let r := stepThread c.1 t
    (r.1, c.2.set i r.2)

/-- Execute a whole interleaving: the schedule lists, in order, which
thread performs its next atomic action. -/
def runSched (sched : List Nat) (c : DriverState × List AllocThread) :
    DriverState × List AllocThread :=
  sched.foldl schedStep c

/-- `true` iff the thread has completed successfully. -/
def isSucc (t : AllocThread) : Bool := t.pc == TPC.done STATUS_SUCCESS

/-- `true` iff the thread has returned (with any status). -/
def isDone (t : AllocThread) : Bool :=
  match t.pc with
  | TPC.done _ => true
  | _ => false

/-- Number of threads that have completed successfully. -/
def countSucc (ts : List AllocThread) : Nat := ts.countP isSucc

/-- N fresh threads, each about to allocate `B` bytes. -/
def initThreads (N B : Nat) (envs : Nat → AllocEnv) : List AllocThread :=
  (List.range N).map fun i => ⟨TPC.validate, B, envs i⟩

/-- Interleaving invariant for N threads of size B each: the thread
list keeps its length, every thread is well-formed and has not failed,
and `UsedSize` is exactly B times the number of completed threads. -/
def ConcInv (N B : Nat) (c : DriverState × List AllocThread) : Prop :=
  c.2.length = N ∧
  (∀ t ∈ c.2,
    t.Size = B ∧ goodEnv t.env ∧
    (t.pc = TPC.validate ∨ t.pc = TPC.acquire ∨ t.pc = TPC.insertEntry ∨
     t.pc = TPC.updateStats ∨ t.pc = TPC.done STATUS_SUCCESS)) ∧
  c.1.UsedSize = B * countSucc c.2 ∧
  c.1.TotalSize = AI_MEMORY_POOL_SIZE

/-! ### Arithmetic and list helpers -/

theorem add64_eq_of_lt {a b : Nat} (h : a + b < U64MOD) : add64 a b = a + b :=
  Nat.mod_eq_of_lt h

theorem sub64_eq_of_le {a b : Nat} (hba : b ≤ a) (ha : a < U64MOD) :
    sub64 a b = a - b := by
  have hb : b % U64MOD = b := Nat.mod_eq_of_lt (lt_of_le_of_lt hba ha)
  unfold sub64
  rw [hb]
  have h2 : a + U64MOD - b = a - b + U64MOD := by omega
  rw [h2, Nat.add_mod_right]
  exact Nat.mod_eq_of_lt (by omega)

theorem two_pool_lt_u64 : 2 * AI_MEMORY_POOL_SIZE < U64MOD := by
  norm_num [AI_MEMORY_POOL_SIZE, U64MOD]

theorem sumSizes_nil : sumSizes [] = 0 := rfl

theorem sumSizes_cons (e : PINNED_MEMORY_ENTRY) (l : List PINNED_MEMORY_ENTRY) :
    sumSizes (e :: l) = e.Size + sumSizes l := by
  simp [sumSizes]

theorem sumSizes_append (l₁ l₂ : List PINNED_MEMORY_ENTRY) :
    sumSizes (l₁ ++ l₂) = sumSizes l₁ + sumSizes l₂ := by
  simp [sumSizes]

theorem removeFirst_eq_none_of_not_mem {addr : Nat}
    {l : List PINNED_MEMORY_ENTRY} (h : ∀ e ∈ l, e.Address ≠ addr) :
    removeFirst addr l = none := by
  induction l with
  | nil => rfl
  | cons e rest ih =>
    unfold removeFirst
    rw [if_neg (h e (List.mem_cons_self e rest)),
      ih (fun f hf => h f (List.mem_cons_of_mem e hf))]

theorem removeFirst_some {addr : Nat} {l rest : List PINNED_MEMORY_ENTRY}
    {e : PINNED_MEMORY_ENTRY} (h : removeFirst addr l = some (e, rest)) :
    e ∈ l ∧ e.Address = addr ∧ sumSizes l = sumSizes rest + e.Size := by
  induction l generalizing rest with
  | nil => simp [removeFirst] at h
  | cons a tail ih =>
    unfold removeFirst at h
    by_cases ha : a.Address = addr
    · rw [if_pos ha] at h
      obtain ⟨he, hrest⟩ := Prod.mk.injEq .. ▸ (Option.some.injEq .. ▸ h)
      subst he; subst hrest
      exact ⟨List.mem_cons_self a tail, ha, by rw [sumSizes_cons]; omega⟩
    · rw [if_neg ha] at h
      cases htail : removeFirst addr tail with
      | none => rw [htail] at h; simp at h
      | some p =>
        obtain ⟨f, rest'⟩ := p
        rw [htail] at h
        simp only [Option.some.injEq, Prod.mk.injEq] at h
        obtain ⟨hef, hrr⟩ := h
        subst hef
        obtain ⟨hmem, haddr, hsum⟩ := ih htail
        subst hrr
        refine ⟨List.mem_cons_of_mem a hmem, haddr, ?_⟩
        rw [sumSizes_cons, sumSizes_cons, hsum]
        omega

/-! ### The pool invariant over reachable states -/

theorem poolInv_alloc {env : AllocEnv} {Size : Nat} {addressNull : Bool}
    {s : DriverState} (ih : PoolInv s) :
    PoolInv (AllocatePinnedMemory env Size addressNull s).2.2 := by
  obtain ⟨hsum, hused, htot⟩ := ih
  unfold AllocatePinnedMemory
  split
  · exact ⟨hsum, hused, htot⟩
  case isFalse hvalid =>
    split
    · exact ⟨hsum, hused, htot⟩
    case isFalse hcap =>
      split
      · exact ⟨hsum, hused, htot⟩
      split
      · exact ⟨hsum, hused, htot⟩
      split
      · exact ⟨hsum, hused, htot⟩
      push_neg at hvalid hcap
      obtain ⟨-, -, hsize⟩ := hvalid
      have hsmall : s.UsedSize + Size < U64MOD := by
        have := two_pool_lt_u64
        omega
      have hadd : add64 s.UsedSize Size = s.UsedSize + Size := add64_eq_of_lt hsmall
      refine ⟨?_, ?_, htot⟩
      · simp only [sumSizes_append, sumSizes_cons, sumSizes_nil, hsum, hadd]
        omega
      · rw [hadd] at hcap ⊢
        exact hcap

theorem poolInv_free {Address : Nat} {s : DriverState} (ih : PoolInv s) :
    PoolInv (FreePinnedMemory Address s).2 := by
  obtain ⟨hsum, hused, htot⟩ := ih
  unfold FreePinnedMemory
  split
  · exact ⟨hsum, hused, htot⟩
  cases hrm : removeFirst Address s.records with
  | none => exact ⟨hsum, hused, htot⟩
  | some p =>
    obtain ⟨e, rest⟩ := p
    obtain ⟨hmem, -, hsz⟩ := removeFirst_some hrm
    have hle : e.Size ≤ s.UsedSize := by omega
    have hlt : s.UsedSize < U64MOD := by
      have := two_pool_lt_u64
      omega
    have hsub : sub64 s.UsedSize e.Size = s.UsedSize - e.Size :=
      sub64_eq_of_le hle hlt
    refine ⟨?_, ?_, htot⟩
    · show sumSizes rest = sub64 s.UsedSize e.Size
      rw [hsub]; omega
    · show sub64 s.UsedSize e.Size ≤ AI_MEMORY_POOL_SIZE
      rw [hsub]; omega

theorem poolInv_cleanup {s : DriverState} (ih : PoolInv s) :
    PoolInv (CleanupPinnedMemory s) := by
  obtain ⟨hsum, hused, htot⟩ := ih
  unfold CleanupPinnedMemory
  split
  · exact ⟨hsum, hused, htot⟩
  · exact ⟨rfl, Nat.zero_le _, htot⟩

theorem reachable_poolInv {s : DriverState} (h : Reachable s) : PoolInv s := by
  induction h with
  | init => exact ⟨rfl, Nat.zero_le _, rfl⟩
  | alloc env Size addressNull s _ ih => exact poolInv_alloc ih
  | free Address s _ ih => exact poolInv_free ih
  | stats s _ ih => exact ih
  | shutdown s _ ih => exact poolInv_cleanup ih

/-- Claim C3: for every state reachable by any sequence of Allocate,
Free, Stats and Shutdown operations from the initial empty pool, the sum
of the sizes of all live allocation records equals the pool's used
counter, and used ≤ capacity. -/
theorem c3_pool_invariant (s : DriverState) (h : Reachable s) :
    sumSizes s.records = s.UsedSize ∧ s.UsedSize ≤ AI_MEMORY_POOL_SIZE :=
  ⟨(reachable_poolInv h).1, (reachable_poolInv h).2.1⟩

/-- Witness for C3 at the initial state. -/
theorem c3_pool_invariant_witness :
    sumSizes initState.records = initState.UsedSize ∧
    initState.UsedSize ≤ AI_MEMORY_POOL_SIZE :=
  c3_pool_invariant initState Reachable.init

/-! ### Claim C1 -/

/-- Claim C1 as stated is false at the concrete input
size = AI_MEMORY_POOL_SIZE + 1 on the fresh pool: `size > capacity` hits
the first validation branch of AllocatePinnedMemory and fails with
STATUS_INVALID_PARAMETER, not the STATUS_INSUFFICIENT_RESOURCES the
claim requires for `size > capacity`. -/
theorem c1_counterexample :
    AllocatePinnedMemory ⟨1, 1, 1⟩ (AI_MEMORY_POOL_SIZE + 1) false initState =
      (STATUS_INVALID_PARAMETER, none, initState) ∧
    STATUS_INVALID_PARAMETER ≠ STATUS_INSUFFICIENT_RESOURCES :=
  ⟨by decide, by decide⟩

/-- Claim C1 (amended): for every state whose used counter respects the
capacity, Allocate fails STATUS_INVALID_PARAMETER when size = 0 or
size > capacity, and fails STATUS_INSUFFICIENT_RESOURCES when
0 < size ≤ capacity and used + size > capacity; in every such failure
the state is unchanged and no handle is issued. -/
theorem c1_allocate_failure_amended (env : AllocEnv) (Size : Nat)
    (s : DriverState) (hused : s.UsedSize ≤ AI_MEMORY_POOL_SIZE) :
    (Size = 0 ∨ Size > AI_MEMORY_POOL_SIZE →
      AllocatePinnedMemory env Size false s =
        (STATUS_INVALID_PARAMETER, none, s)) ∧
    (Size ≠ 0 → Size ≤ AI_MEMORY_POOL_SIZE →
      s.UsedSize + Size > AI_MEMORY_POOL_SIZE →
      AllocatePinnedMemory env Size false s =
        (STATUS_INSUFFICIENT_RESOURCES, none, s)) := by
  constructor
  · intro h
    unfold AllocatePinnedMemory
    rw [if_pos (Or.inr h)]
  · intro h0 hle hover
    have hadd : add64 s.UsedSize Size = s.UsedSize + Size :=
      add64_eq_of_lt (by have := two_pool_lt_u64; omega)
    have hnc : ¬((false : Bool) = true ∨ Size = 0 ∨ Size > AI_MEMORY_POOL_SIZE) := by
      rintro (h | h | h)
      · exact Bool.false_ne_true h
      · exact h0 h
      · omega
    have hc2 : add64 s.UsedSize Size > AI_MEMORY_POOL_SIZE := by
      rw [hadd]
      exact hover
    unfold AllocatePinnedMemory
    rw [if_neg hnc, if_pos hc2]

/-- Witness for C1 (amended) at the concrete busy state: a zero-size
request fails STATUS_INVALID_PARAMETER and an overcommitting request of
exactly the capacity fails STATUS_INSUFFICIENT_RESOURCES, both without
touching the state. -/
theorem c1_allocate_failure_amended_witness :
    sampleBusyState.UsedSize ≤ AI_MEMORY_POOL_SIZE ∧
    AllocatePinnedMemory ⟨1, 1, 1⟩ 0 false sampleBusyState =
      (STATUS_INVALID_PARAMETER, none, sampleBusyState) ∧
    AllocatePinnedMemory ⟨1, 1, 1⟩ AI_MEMORY_POOL_SIZE false sampleBusyState =
      (STATUS_INSUFFICIENT_RESOURCES, none, sampleBusyState) := by
  have hu : sampleBusyState.UsedSize ≤ AI_MEMORY_POOL_SIZE := by decide
  refine ⟨hu, ?_, ?_⟩
  · exact (c1_allocate_failure_amended ⟨1, 1, 1⟩ 0 sampleBusyState hu).1 (Or.inl rfl)
  · exact (c1_allocate_failure_amended ⟨1, 1, 1⟩ AI_MEMORY_POOL_SIZE sampleBusyState
      hu).2 (by decide) (by decide) (by decide)

/-! ### Claim C4 -/

/-- Claim C4: every failing Allocate is atomic with respect to visible
state — any non-success result leaves the state exactly as before and
writes no handle; in particular, when the validation and capacity
checks pass but any of the three internal acquisitions (backing buffer,
MDL, record entry) fails, the result is STATUS_INSUFFICIENT_RESOURCES
with the state unchanged. -/
theorem c4_failing_allocate_atomic :
    (∀ env Size addressNull s st a s',
      AllocatePinnedMemory env Size addressNull s = (st, a, s') →
      st ≠ STATUS_SUCCESS → a = none ∧ s' = s) ∧
    (∀ env Size s, Size ≠ 0 → Size ≤ AI_MEMORY_POOL_SIZE →
      add64 s.UsedSize Size ≤ AI_MEMORY_POOL_SIZE →
      env.bufferAddr = 0 ∨ env.mdlPtr = 0 ∨ env.entryPtr = 0 →
      AllocatePinnedMemory env Size false s =
        (STATUS_INSUFFICIENT_RESOURCES, none, s)) := by
  constructor
  · intro env Size addressNull s st a s' heq hne
    unfold AllocatePinnedMemory at heq
    repeat' split at heq
    all_goals simp only [Prod.mk.injEq] at heq
    all_goals first
      | exact absurd heq.1.symm hne
      | exact ⟨heq.2.1.symm, heq.2.2.symm⟩
  · intro env Size s h0 hle hcap hfail
    have hnc : ¬((false : Bool) = true ∨ Size = 0 ∨ Size > AI_MEMORY_POOL_SIZE) := by
      rintro (h | h | h)
      · exact Bool.false_ne_true h
      · exact h0 h
      · omega
    have hnc2 : ¬ add64 s.UsedSize Size > AI_MEMORY_POOL_SIZE := by omega
    unfold AllocatePinnedMemory
    by_cases hb : env.bufferAddr = 0
    · rw [if_neg hnc, if_neg hnc2, if_pos hb]
    · by_cases hm : env.mdlPtr = 0
      · rw [if_neg hnc, if_neg hnc2, if_neg hb, if_pos hm]
      · have he : env.entryPtr = 0 := by tauto
        rw [if_neg hnc, if_neg hnc2, if_neg hb, if_neg hm, if_pos he]

/-- Witness for C4: a zero-size failure issues no handle and keeps the
state, and a backing-buffer failure (NULL from the pool allocator) after
the checks pass returns STATUS_INSUFFICIENT_RESOURCES with the fresh
state intact. -/
theorem c4_failing_allocate_atomic_witness :
    ((AllocatePinnedMemory ⟨1, 1, 1⟩ 0 false initState).1 ≠ STATUS_SUCCESS ∧
      (AllocatePinnedMemory ⟨1, 1, 1⟩ 0 false initState).2.1 = none ∧
      (AllocatePinnedMemory ⟨1, 1, 1⟩ 0 false initState).2.2 = initState) ∧
    AllocatePinnedMemory ⟨0, 1, 1⟩ 4096 false initState =
      (STATUS_INSUFFICIENT_RESOURCES, none, initState) := by
  constructor
  · have h := c4_failing_allocate_atomic.1 ⟨1, 1, 1⟩ 0 false initState
      (AllocatePinnedMemory ⟨1, 1, 1⟩ 0 false initState).1
      (AllocatePinnedMemory ⟨1, 1, 1⟩ 0 false initState).2.1
      (AllocatePinnedMemory ⟨1, 1, 1⟩ 0 false initState).2.2
      rfl (by decide)
    exact ⟨by decide, h.1, h.2⟩
  · exact c4_failing_allocate_atomic.2 ⟨0, 1, 1⟩ 4096 initState
      (by decide) (by decide) (by decide) (Or.inl rfl)

/-! ### Claim C7 -/

/-- Claim C7 as stated is false at the concrete handle 0 on the fresh
pool: 0 is a handle value never issued by any successful Allocate, yet
Free(0) fails with STATUS_INVALID_PARAMETER, not the STATUS_NOT_FOUND
the claim requires (the state is indeed unchanged). -/
theorem c7_counterexample :
    FreePinnedMemory 0 initState = (STATUS_INVALID_PARAMETER, initState) ∧
    STATUS_INVALID_PARAMETER ≠ STATUS_NOT_FOUND :=
  ⟨by decide, by decide⟩

/-- Claim C7 (amended): for every NONZERO handle value that is not the
address of any live allocation record (never issued, or already freed),
Free fails with STATUS_NOT_FOUND and leaves the whole state — registry,
used counter and fragmentation ratio — unchanged.  (Handle 0 instead
fails STATUS_INVALID_PARAMETER, also with the state unchanged.) -/
theorem c7_free_unknown_handle_amended (Address : Nat) (s : DriverState)
    (hnz : Address ≠ 0) (hnm : ∀ e ∈ s.records, e.Address ≠ Address) :
    FreePinnedMemory Address s = (STATUS_NOT_FOUND, s) := by
  unfold FreePinnedMemory
  rw [if_neg hnz, removeFirst_eq_none_of_not_mem hnm]

/-- Witness for C7 (amended): freeing the never-issued handle 123 on the
busy state (whose only live handle is 5) fails STATUS_NOT_FOUND with the
state unchanged. -/
theorem c7_free_unknown_handle_amended_witness :
    (123 : Nat) ≠ 0 ∧
    (∀ e ∈ sampleBusyState.records, e.Address ≠ 123) ∧
    FreePinnedMemory 123 sampleBusyState = (STATUS_NOT_FOUND, sampleBusyState) :=
  ⟨by decide, by decide,
    c7_free_unknown_handle_amended 123 sampleBusyState (by decide) (by decide)⟩

/-! ### Claim C10 -/

/-- Claim C10: Free invoked with handle value 0 always fails with
STATUS_INVALID_PARAMETER (never STATUS_NOT_FOUND), with 0 bytes written
and the state unchanged, in both the dispatcher handler
(HandleFreePinned, whatever the buffer lengths or NULL-ness) and the
allocator core (FreePinnedMemory): the zero check precedes the registry
lookup. -/
theorem c10_free_zero_handle :
    (∀ irpNull bufferNull inLen outLen s,
      HandleFreePinned irpNull ⟨bufferNull, inLen, outLen, 0⟩ s =
        (STATUS_INVALID_PARAMETER, 0, s)) ∧
    (∀ s, FreePinnedMemory 0 s = (STATUS_INVALID_PARAMETER, s)) := by
  constructor
  · intro irpNull bufferNull inLen outLen s
    unfold HandleFreePinned
    split
    · rfl
    split
    · rfl
    split
    · rfl
    rw [if_pos rfl]
  · intro s
    unfold FreePinnedMemory
    rw [if_pos rfl]

/-! ### Claim C5 -/

/-- Claim C5: on an initialized pool with the fixed capacity, Shutdown
drains every live record and resets used = 0, free = capacity and
fragmentation_ratio = 0; afterwards Free on any (necessarily nonzero)
previously issued handle fails STATUS_NOT_FOUND without changing the
state; Shutdown is idempotent (running it again on the already-empty
result is a no-op); and every handle issued by a successful Allocate is
nonzero, so the nonzero-handle quantification covers all prior
handles. -/
theorem c5_shutdown (s : DriverState) (hinit : s.pinnedInitialized = true)
    (htot : s.TotalSize = AI_MEMORY_POOL_SIZE) :
    (CleanupPinnedMemory s).UsedSize = 0 ∧
    (CleanupPinnedMemory s).FreeSize = AI_MEMORY_POOL_SIZE ∧
    (CleanupPinnedMemory s).FragmentationRatio = 0 ∧
    (CleanupPinnedMemory s).records = [] ∧
    (∀ Address, Address ≠ 0 →
      FreePinnedMemory Address (CleanupPinnedMemory s) =
        (STATUS_NOT_FOUND, CleanupPinnedMemory s)) ∧
    CleanupPinnedMemory (CleanupPinnedMemory s) = CleanupPinnedMemory s ∧
    (∀ env Size addressNull s₀ a,
      (AllocatePinnedMemory env Size addressNull s₀).2.1 = some a → a ≠ 0) := by
  have hne : ¬ s.pinnedInitialized = false := by
    rw [hinit]
    decide
  have hc : CleanupPinnedMemory s =
      { records := []
        TotalSize := s.TotalSize
        UsedSize := 0
        FreeSize := s.TotalSize
        FragmentationRatio := 0
        pinnedInitialized := false } := by
    unfold CleanupPinnedMemory
    rw [if_neg hne]
  refine ⟨?_, ?_, ?_, ?_, ?_, ?_, ?_⟩
  · rw [hc]
  · rw [hc, htot]
  · rw [hc]
  · rw [hc]
  · intro Address hnz
    rw [hc]
    unfold FreePinnedMemory
    rw [if_neg hnz]
    rfl
  · rw [hc]
    unfold CleanupPinnedMemory
    rw [if_pos rfl]
  · intro env Size addressNull s₀ a ha
    unfold AllocatePinnedMemory at ha
    repeat' split at ha
    · exact absurd ha (by simp)
    · exact absurd ha (by simp)
    · exact absurd ha (by simp)
    · exact absurd ha (by simp)
    · exact absurd ha (by simp)
    case isFalse hb _ _ =>
      simp only [Option.some.injEq] at ha
      subst ha
      assumption

/-- Witness for C5 at the busy state whose only live handle is 5. -/
theorem c5_shutdown_witness :
    sampleBusyState.pinnedInitialized = true ∧
    sampleBusyState.TotalSize = AI_MEMORY_POOL_SIZE ∧
    (CleanupPinnedMemory sampleBusyState).UsedSize = 0 ∧
    (CleanupPinnedMemory sampleBusyState).FreeSize = AI_MEMORY_POOL_SIZE ∧
    FreePinnedMemory 5 (CleanupPinnedMemory sampleBusyState) =
      (STATUS_NOT_FOUND, CleanupPinnedMemory sampleBusyState) ∧
    CleanupPinnedMemory (CleanupPinnedMemory sampleBusyState) =
      CleanupPinnedMemory sampleBusyState := by
  have h := c5_shutdown sampleBusyState (by decide) (by decide)
  exact ⟨by decide, by decide, h.1, h.2.1, h.2.2.2.2.1 5 (by decide),
    h.2.2.2.2.2.1⟩

/-! ### Claim C6 -/

/-- Claim C6: after every successful Allocate and every successful
Free, the stored fragmentation ratio equals (used mod 4096) / 4096 when
used > 0 and 0 when used = 0, exactly, as a rational value of the
stored fixed-width fields. -/
theorem c6_fragmentation_ratio :
    (∀ env Size addressNull s st a s',
      AllocatePinnedMemory env Size addressNull s = (st, a, s') →
      st = STATUS_SUCCESS →
      s'.fragRatioQ =
        if s'.UsedSize = 0 then 0
        else ((s'.UsedSize % 4096 : Nat) : ℚ) / 4096) ∧
    (∀ Address s st s',
      FreePinnedMemory Address s = (st, s') →
      st = STATUS_SUCCESS →
      s'.fragRatioQ =
        if s'.UsedSize = 0 then 0
        else ((s'.UsedSize % 4096 : Nat) : ℚ) / 4096) := by
  constructor
  · intro env Size addressNull s st a s' heq hst
    subst hst
    unfold AllocatePinnedMemory at heq
    split at heq
    · exact NTStatus.noConfusion (congrArg Prod.fst heq)
    split at heq
    · exact NTStatus.noConfusion (congrArg Prod.fst heq)
    split at heq
    · exact NTStatus.noConfusion (congrArg Prod.fst heq)
    split at heq
    · exact NTStatus.noConfusion (congrArg Prod.fst heq)
    split at heq
    · exact NTStatus.noConfusion (congrArg Prod.fst heq)
    simp only [Prod.mk.injEq] at heq
    obtain ⟨-, -, hs'⟩ := heq
    subst hs'
    show ((add64 s.UsedSize Size % 4096 : Nat) : ℚ) / 4096 =
      if add64 s.UsedSize Size = 0 then 0
      else ((add64 s.UsedSize Size % 4096 : Nat) : ℚ) / 4096
    split
    case isTrue hz => rw [hz]; norm_num
    case isFalse hz => rfl
  · intro Address s st s' heq hst
    subst hst
    unfold FreePinnedMemory at heq
    split at heq
    · exact NTStatus.noConfusion (congrArg Prod.fst heq)
    split at heq
    · exact NTStatus.noConfusion (congrArg Prod.fst heq)
    rename_i e rest hrm
    simp only [Prod.mk.injEq] at heq
    obtain ⟨-, hs'⟩ := heq
    subst hs'
    show (((if sub64 s.UsedSize e.Size > 0
          then sub64 s.UsedSize e.Size % 4096 else 0) : Nat) : ℚ) / 4096 =
      if sub64 s.UsedSize e.Size = 0 then 0
      else ((sub64 s.UsedSize e.Size % 4096 : Nat) : ℚ) / 4096
    by_cases hz : sub64 s.UsedSize e.Size = 0
    · rw [if_neg (by omega), if_pos hz]
      norm_num
    · rw [if_pos (by omega), if_neg hz]

/-- Witness for C6: a successful 100-byte Allocate on the fresh pool and
a successful Free of the single live handle of the busy state both leave
the fragmentation ratio at the claimed value. -/
theorem c6_fragmentation_ratio_witness :
    (AllocatePinnedMemory ⟨5, 6, 7⟩ 100 false initState).1 = STATUS_SUCCESS ∧
    ((AllocatePinnedMemory ⟨5, 6, 7⟩ 100 false initState).2.2.fragRatioQ =
      if (AllocatePinnedMemory ⟨5, 6, 7⟩ 100 false initState).2.2.UsedSize = 0
      then 0
      else (((AllocatePinnedMemory ⟨5, 6, 7⟩ 100 false
        initState).2.2.UsedSize % 4096 : Nat) : ℚ) / 4096) ∧
    (FreePinnedMemory 5 sampleBusyState).1 = STATUS_SUCCESS ∧
    ((FreePinnedMemory 5 sampleBusyState).2.fragRatioQ =
      if (FreePinnedMemory 5 sampleBusyState).2.UsedSize = 0 then 0
      else (((FreePinnedMemory 5 sampleBusyState).2.UsedSize % 4096 : Nat) : ℚ)
        / 4096) :=
  ⟨by decide,
   c6_fragmentation_ratio.1 ⟨5, 6, 7⟩ 100 false initState
     (AllocatePinnedMemory ⟨5, 6, 7⟩ 100 false initState).1
     (AllocatePinnedMemory ⟨5, 6, 7⟩ 100 false initState).2.1
     (AllocatePinnedMemory ⟨5, 6, 7⟩ 100 false initState).2.2
     rfl (by decide),
   by decide,
   c6_fragmentation_ratio.2 5 sampleBusyState
     (FreePinnedMemory 5 sampleBusyState).1
     (FreePinnedMemory 5 sampleBusyState).2
     rfl (by decide)⟩

/-! ### Claim C2 -/

/-- Dispatch of IOCTL_AI_GET_GPU_STATUS reaches its handler. -/
theorem dispatch_gpu_status (env : AllocEnv) (req : IoRequest) (s : DriverState) :
    AiDriverEvtIoDeviceControl false false env IOCTL_AI_GET_GPU_STATUS req s =
      HandleGetGpuStatus false req s := by
  unfold AiDriverEvtIoDeviceControl
  rw [if_neg (by decide), if_neg (by decide), if_pos rfl]

/-- Dispatch of IOCTL_AI_GET_MEMORY_POOL reaches its handler. -/
theorem dispatch_memory_pool (env : AllocEnv) (req : IoRequest) (s : DriverState) :
    AiDriverEvtIoDeviceControl false false env IOCTL_AI_GET_MEMORY_POOL req s =
      HandleGetMemoryPool false req s := by
  unfold AiDriverEvtIoDeviceControl
  rw [if_neg (by decide), if_neg (by decide), if_neg (by decide), if_pos rfl]

/-- Dispatch of IOCTL_AI_GET_SCHEDULER_STATS reaches its handler. -/
theorem dispatch_scheduler_stats (env : AllocEnv) (req : IoRequest) (s : DriverState) :
    AiDriverEvtIoDeviceControl false false env IOCTL_AI_GET_SCHEDULER_STATS req s =
      HandleGetSchedulerStats false req s := by
  unfold AiDriverEvtIoDeviceControl
  rw [if_neg (by decide), if_neg (by decide), if_neg (by decide),
    if_neg (by decide), if_pos rfl]

/-- Dispatch of IOCTL_AI_ALLOC_PINNED reaches its handler. -/
theorem dispatch_alloc_pinned (env : AllocEnv) (req : IoRequest) (s : DriverState) :
    AiDriverEvtIoDeviceControl false false env IOCTL_AI_ALLOC_PINNED req s =
      HandleAllocPinned false env req s := by
  unfold AiDriverEvtIoDeviceControl
  rw [if_neg (by decide), if_neg (by decide), if_neg (by decide),
    if_neg (by decide), if_neg (by decide), if_pos rfl]

/-- Dispatch of IOCTL_AI_FREE_PINNED reaches its handler. -/
theorem dispatch_free_pinned (env : AllocEnv) (req : IoRequest) (s : DriverState) :
    AiDriverEvtIoDeviceControl false false env IOCTL_AI_FREE_PINNED req s =
      HandleFreePinned false req s := by
  unfold AiDriverEvtIoDeviceControl
  rw [if_neg (by decide), if_neg (by decide), if_neg (by decide),
    if_neg (by decide), if_neg (by decide), if_neg (by decide), if_pos rfl]

/-- Claim C2 as stated is false at the concrete input: dispatching
AllocatePinned with a present input buffer of 4 bytes (below its
declared 8-byte minimum) returns STATUS_INVALID_PARAMETER, not the
STATUS_BUFFER_TOO_SMALL the claim requires for a present-but-undersized
buffer (0 bytes are written). -/
theorem c2_counterexample :
    AiDriverEvtIoDeviceControl false false ⟨1, 1, 1⟩ IOCTL_AI_ALLOC_PINNED
        ⟨false, 4, 8, 1⟩ initState =
      (STATUS_INVALID_PARAMETER, 0, initState) ∧
    STATUS_INVALID_PARAMETER ≠ STATUS_BUFFER_TOO_SMALL :=
  ⟨by decide, by decide⟩

/-- Claim C2 (amended): the three stats-query commands return
STATUS_BUFFER_TOO_SMALL for a present-but-undersized output buffer and
STATUS_INVALID_PARAMETER for a NULL buffer (of sufficient declared
length), while AllocatePinned and FreePinned return
STATUS_INVALID_PARAMETER both for undersized buffers and for NULL
buffers; in every case 0 bytes are written and the state is
unchanged. -/
theorem c2_buffer_validation_amended (env : AllocEnv) (req : IoRequest)
    (s : DriverState) :
    (req.OutputBufferLength < 24 →
      AiDriverEvtIoDeviceControl false false env IOCTL_AI_GET_GPU_STATUS req s =
        (STATUS_BUFFER_TOO_SMALL, 0, s)) ∧
    (24 ≤ req.OutputBufferLength → req.bufferNull = true →
      AiDriverEvtIoDeviceControl false false env IOCTL_AI_GET_GPU_STATUS req s =
        (STATUS_INVALID_PARAMETER, 0, s)) ∧
    (req.OutputBufferLength < 32 →
      AiDriverEvtIoDeviceControl false false env IOCTL_AI_GET_MEMORY_POOL req s =
        (STATUS_BUFFER_TOO_SMALL, 0, s)) ∧
    (32 ≤ req.OutputBufferLength → req.bufferNull = true →
      AiDriverEvtIoDeviceControl false false env IOCTL_AI_GET_MEMORY_POOL req s =
        (STATUS_INVALID_PARAMETER, 0, s)) ∧
    (req.OutputBufferLength < 12 →
      AiDriverEvtIoDeviceControl false false env IOCTL_AI_GET_SCHEDULER_STATS req s =
        (STATUS_BUFFER_TOO_SMALL, 0, s)) ∧
    (12 ≤ req.OutputBufferLength → req.bufferNull = true →
      AiDriverEvtIoDeviceControl false false env IOCTL_AI_GET_SCHEDULER_STATS req s =
        (STATUS_INVALID_PARAMETER, 0, s)) ∧
    (req.InputBufferLength < 8 ∨ req.OutputBufferLength < 8 →
      AiDriverEvtIoDeviceControl false false env IOCTL_AI_ALLOC_PINNED req s =
        (STATUS_INVALID_PARAMETER, 0, s)) ∧
    (req.bufferNull = true →
      AiDriverEvtIoDeviceControl false false env IOCTL_AI_ALLOC_PINNED req s =
        (STATUS_INVALID_PARAMETER, 0, s)) ∧
    (req.InputBufferLength < 8 →
      AiDriverEvtIoDeviceControl false false env IOCTL_AI_FREE_PINNED req s =
        (STATUS_INVALID_PARAMETER, 0, s)) ∧
    (req.bufferNull = true →
      AiDriverEvtIoDeviceControl false false env IOCTL_AI_FREE_PINNED req s =
        (STATUS_INVALID_PARAMETER, 0, s)) := by
  refine ⟨?_, ?_, ?_, ?_, ?_, ?_, ?_, ?_, ?_, ?_⟩
  · intro h
    rw [dispatch_gpu_status]
    unfold HandleGetGpuStatus
    rw [if_neg (by decide), if_pos h]
  · intro h hnull
    rw [dispatch_gpu_status]
    unfold HandleGetGpuStatus
    rw [if_neg (by decide), if_neg (by omega), if_pos hnull]
  · intro h
    rw [dispatch_memory_pool]
    unfold HandleGetMemoryPool
    rw [if_neg (by decide), if_pos h]
  · intro h hnull
    rw [dispatch_memory_pool]
    unfold HandleGetMemoryPool
    rw [if_neg (by decide), if_neg (by omega), if_pos hnull]
  · intro h
    rw [dispatch_scheduler_stats]
    unfold HandleGetSchedulerStats
    rw [if_neg (by decide), if_pos h]
  · intro h hnull
    rw [dispatch_scheduler_stats]
    unfold HandleGetSchedulerStats
    rw [if_neg (by decide), if_neg (by omega), if_pos hnull]
  · intro h
    rw [dispatch_alloc_pinned]
    unfold HandleAllocPinned
    rw [if_neg (by decide), if_pos h]
  · intro hnull
    rw [dispatch_alloc_pinned]
    unfold HandleAllocPinned
    by_cases h : req.InputBufferLength < 8 ∨ req.OutputBufferLength < 8
    · rw [if_neg (by decide), if_pos h]
    · rw [if_neg (by decide), if_neg h, if_pos hnull]
  · intro h
    rw [dispatch_free_pinned]
    unfold HandleFreePinned
    rw [if_neg (by decide), if_pos h]
  · intro hnull
    rw [dispatch_free_pinned]
    unfold HandleFreePinned
    by_cases h : req.InputBufferLength < 8
    · rw [if_neg (by decide), if_pos h]
    · rw [if_neg (by decide), if_neg h, if_pos hnull]

/-- Witness for C2 (amended): each validation clause at a concrete
request on the fresh pool. -/
theorem c2_buffer_validation_amended_witness :
    AiDriverEvtIoDeviceControl false false ⟨1, 1, 1⟩ IOCTL_AI_GET_GPU_STATUS
      ⟨false, 0, 10, 0⟩ initState = (STATUS_BUFFER_TOO_SMALL, 0, initState) ∧
    AiDriverEvtIoDeviceControl false false ⟨1, 1, 1⟩ IOCTL_AI_GET_GPU_STATUS
      ⟨true, 0, 24, 0⟩ initState = (STATUS_INVALID_PARAMETER, 0, initState) ∧
    AiDriverEvtIoDeviceControl false false ⟨1, 1, 1⟩ IOCTL_AI_GET_MEMORY_POOL
      ⟨false, 0, 10, 0⟩ initState = (STATUS_BUFFER_TOO_SMALL, 0, initState) ∧
    AiDriverEvtIoDeviceControl false false ⟨1, 1, 1⟩ IOCTL_AI_GET_MEMORY_POOL
      ⟨true, 0, 32, 0⟩ initState = (STATUS_INVALID_PARAMETER, 0, initState) ∧
    AiDriverEvtIoDeviceControl false false ⟨1, 1, 1⟩ IOCTL_AI_GET_SCHEDULER_STATS
      ⟨false, 0, 10, 0⟩ initState = (STATUS_BUFFER_TOO_SMALL, 0, initState) ∧
    AiDriverEvtIoDeviceControl false false ⟨1, 1, 1⟩ IOCTL_AI_GET_SCHEDULER_STATS
      ⟨true, 0, 12, 0⟩ initState = (STATUS_INVALID_PARAMETER, 0, initState) ∧
    AiDriverEvtIoDeviceControl false false ⟨1, 1, 1⟩ IOCTL_AI_ALLOC_PINNED
      ⟨false, 4, 8, 1⟩ initState = (STATUS_INVALID_PARAMETER, 0, initState) ∧
    AiDriverEvtIoDeviceControl false false ⟨1, 1, 1⟩ IOCTL_AI_ALLOC_PINNED
      ⟨true, 8, 8, 1⟩ initState = (STATUS_INVALID_PARAMETER, 0, initState) ∧
    AiDriverEvtIoDeviceControl false false ⟨1, 1, 1⟩ IOCTL_AI_FREE_PINNED
      ⟨false, 4, 0, 1⟩ initState = (STATUS_INVALID_PARAMETER, 0, initState) ∧
    AiDriverEvtIoDeviceControl false false ⟨1, 1, 1⟩ IOCTL_AI_FREE_PINNED
      ⟨true, 8, 0, 1⟩ initState = (STATUS_INVALID_PARAMETER, 0, initState) :=
  ⟨(c2_buffer_validation_amended ⟨1, 1, 1⟩ ⟨false, 0, 10, 0⟩ initState).1
      (by decide),
   (c2_buffer_validation_amended ⟨1, 1, 1⟩ ⟨true, 0, 24, 0⟩ initState).2.1
      (by decide) rfl,
   (c2_buffer_validation_amended ⟨1, 1, 1⟩ ⟨false, 0, 10, 0⟩ initState).2.2.1
      (by decide),
   (c2_buffer_validation_amended ⟨1, 1, 1⟩ ⟨true, 0, 32, 0⟩
      initState).2.2.2.1 (by decide) rfl,
   (c2_buffer_validation_amended ⟨1, 1, 1⟩ ⟨false, 0, 10, 0⟩
      initState).2.2.2.2.1 (by decide),
   (c2_buffer_validation_amended ⟨1, 1, 1⟩ ⟨true, 0, 12, 0⟩
      initState).2.2.2.2.2.1 (by decide) rfl,
   (c2_buffer_validation_amended ⟨1, 1, 1⟩ ⟨false, 4, 8, 1⟩
      initState).2.2.2.2.2.2.1 (Or.inl (by decide)),
   (c2_buffer_validation_amended ⟨1, 1, 1⟩ ⟨true, 8, 8, 1⟩
      initState).2.2.2.2.2.2.2.1 rfl,
   (c2_buffer_validation_amended ⟨1, 1, 1⟩ ⟨false, 4, 0, 1⟩
      initState).2.2.2.2.2.2.2.2.1 (by decide),
   (c2_buffer_validation_amended ⟨1, 1, 1⟩ ⟨true, 8, 0, 1⟩
      initState).2.2.2.2.2.2.2.2.2 rfl⟩

/-! ### Claim C8 -/

/-- Claim C8: each legacy command code (GetStats, SetGpuUtil,
BoostPriority) dispatches to STATUS_NOT_IMPLEMENTED with 0 bytes
written and the pool state untouched, for every buffer configuration;
and every command code outside the fixed table dispatches to
STATUS_INVALID_DEVICE_REQUEST with 0 bytes written and the state
untouched. -/
theorem c8_dispatch_legacy_unknown :
    (∀ env req s,
      AiDriverEvtIoDeviceControl false false env IOCTL_AI_GET_STATS req s =
        (STATUS_NOT_IMPLEMENTED, 0, s) ∧
      AiDriverEvtIoDeviceControl false false env IOCTL_AI_SET_GPU_UTIL req s =
        (STATUS_NOT_IMPLEMENTED, 0, s) ∧
      AiDriverEvtIoDeviceControl false false env IOCTL_AI_BOOST_PRIORITY req s =
        (STATUS_NOT_IMPLEMENTED, 0, s)) ∧
    (∀ code, code ∉ knownIoctlCodes → ∀ env req s,
      AiDriverEvtIoDeviceControl false false env code req s =
        (STATUS_INVALID_DEVICE_REQUEST, 0, s)) := by
  constructor
  · intro env req s
    refine ⟨?_, ?_, ?_⟩
    · unfold AiDriverEvtIoDeviceControl
      rw [if_neg (by decide), if_neg (by decide), if_neg (by decide),
        if_neg (by decide), if_neg (by decide), if_neg (by decide),
        if_neg (by decide), if_pos rfl]
    · unfold AiDriverEvtIoDeviceControl
      rw [if_neg (by decide), if_neg (by decide), if_neg (by decide),
        if_neg (by decide), if_neg (by decide), if_neg (by decide),
        if_neg (by decide), if_neg (by decide), if_pos rfl]
    · unfold AiDriverEvtIoDeviceControl
      rw [if_neg (by decide), if_neg (by decide), if_neg (by decide),
        if_neg (by decide), if_neg (by decide), if_neg (by decide),
        if_neg (by decide), if_neg (by decide), if_neg (by decide),
        if_pos rfl]
  · intro code hcode env req s
    simp only [knownIoctlCodes, List.mem_cons, List.not_mem_nil, or_false,
      not_or] at hcode
    obtain ⟨h1, h2, h3, h4, h5, h6, h7, h8⟩ := hcode
    unfold AiDriverEvtIoDeviceControl
    rw [if_neg (by decide), if_neg (by decide), if_neg h4, if_neg h5,
      if_neg h6, if_neg h7, if_neg h8, if_neg h1, if_neg h2, if_neg h3]

/-- Witness for C8 at the unknown command code 0 and a concrete
request: the legacy codes all answer STATUS_NOT_IMPLEMENTED and code 0
answers STATUS_INVALID_DEVICE_REQUEST. -/
theorem c8_dispatch_legacy_unknown_witness :
    (0 : Nat) ∉ knownIoctlCodes ∧
    AiDriverEvtIoDeviceControl false false ⟨1, 1, 1⟩ IOCTL_AI_GET_STATS
      ⟨false, 100, 100, 7⟩ initState = (STATUS_NOT_IMPLEMENTED, 0, initState) ∧
    AiDriverEvtIoDeviceControl false false ⟨1, 1, 1⟩ IOCTL_AI_SET_GPU_UTIL
      ⟨false, 100, 100, 7⟩ initState = (STATUS_NOT_IMPLEMENTED, 0, initState) ∧
    AiDriverEvtIoDeviceControl false false ⟨1, 1, 1⟩ IOCTL_AI_BOOST_PRIORITY
      ⟨false, 100, 100, 7⟩ initState = (STATUS_NOT_IMPLEMENTED, 0, initState) ∧
    AiDriverEvtIoDeviceControl false false ⟨1, 1, 1⟩ 0
      ⟨false, 100, 100, 7⟩ initState =
      (STATUS_INVALID_DEVICE_REQUEST, 0, initState) := by
  have h1 := c8_dispatch_legacy_unknown.1 ⟨1, 1, 1⟩ ⟨false, 100, 100, 7⟩ initState
  have h2 := c8_dispatch_legacy_unknown.2 0 (by decide) ⟨1, 1, 1⟩
    ⟨false, 100, 100, 7⟩ initState
  exact ⟨by decide, h1.1, h1.2.1, h1.2.2, h2⟩

/-! ### Claim C9: counting lemmas and the interleaving invariant -/

theorem countSucc_lt_of_not {ts : List AllocThread} {i : Nat} {t : AllocThread}
    (hget : ts[i]? = some t) (hnot : isSucc t = false) :
    countSucc ts < ts.length := by
  induction ts generalizing i with
  | nil => simp at hget
  | cons a tail ih =>
    cases i with
    | zero =>
      rw [List.getElem?_cons_zero, Option.some.injEq] at hget
      subst hget
      unfold countSucc
      rw [List.countP_cons, List.length_cons, hnot]
      have hle : List.countP isSucc tail ≤ tail.length :=
        List.countP_le_length isSucc
      have hif : (if (false : Bool) = true then 1 else 0) = 0 := rfl
      rw [hif]
      omega
    | succ n =>
      rw [List.getElem?_cons_succ] at hget
      unfold countSucc
      rw [List.countP_cons, List.length_cons]
      have := ih hget
      unfold countSucc at this
      have hd : (if isSucc a = true then 1 else 0) ≤ 1 := by
        split <;> omega
      omega

theorem countSucc_set {ts : List AllocThread} {i : Nat} {t : AllocThread}
    (t' : AllocThread) (hget : ts[i]? = some t) :
    countSucc (ts.set i t') + (if isSucc t then 1 else 0) =
      countSucc ts + (if isSucc t' then 1 else 0) := by
  induction ts generalizing i with
  | nil => simp at hget
  | cons a tail ih =>
    cases i with
    | zero =>
      rw [List.getElem?_cons_zero, Option.some.injEq] at hget
      subst hget
      unfold countSucc
      rw [List.set_cons_zero, List.countP_cons, List.countP_cons]
      omega
    | succ n =>
      rw [List.getElem?_cons_succ] at hget
      unfold countSucc
      rw [List.set_cons_succ, List.countP_cons, List.countP_cons]
      have := ih hget
      unfold countSucc at this
      omega

theorem concInv_step (N B : Nat) (hB0 : B ≠ 0)
    (hNB : N * B ≤ AI_MEMORY_POOL_SIZE)
    {c : DriverState × List AllocThread} (h : ConcInv N B c) (i : Nat) :
    ConcInv N B (schedStep c i) := by
  obtain ⟨hlen, hok, hused, htot⟩ := h
  unfold schedStep
  split
  · exact ⟨hlen, hok, hused, htot⟩
  rename_i t hget
  show ConcInv N B ((stepThread c.1 t).1, c.2.set i (stepThread c.1 t).2)
  obtain ⟨hsize, hgood, hpc⟩ := hok t (List.getElem?_mem hget)
  have hNpos : 1 ≤ N := by
    obtain ⟨hi, -⟩ := List.getElem?_eq_some_iff.mp hget
    omega
  have hBle : B ≤ AI_MEMORY_POOL_SIZE := by
    have h1 : 1 * B ≤ N * B := Nat.mul_le_mul_right B hNpos
    omega
  have hmemset : ∀ t' u, u ∈ c.2.set i t' →
      (u.Size = B ∧ goodEnv u.env ∧
        (u.pc = TPC.validate ∨ u.pc = TPC.acquire ∨ u.pc = TPC.insertEntry ∨
         u.pc = TPC.updateStats ∨ u.pc = TPC.done STATUS_SUCCESS)) ∨ u = t' := by
    intro t' u hu
    rcases List.mem_or_eq_of_mem_set hu with hu | hu
    · exact Or.inl (hok u hu)
    · exact Or.inr hu
  have hmul : countSucc c.2 < N → B * countSucc c.2 + B ≤ N * B := by
    intro hcnt
    have h1 : B * (countSucc c.2 + 1) ≤ B * N := Nat.mul_le_mul_left B hcnt
    rw [Nat.mul_succ] at h1
    rw [Nat.mul_comm N B]
    exact h1
  rcases hpc with hv | ha | hi | hu | hd
  · -- validate: the checks pass and the thread moves to acquire
    have hcnt : countSucc c.2 < N := by
      rw [← hlen]
      exact countSucc_lt_of_not hget (by unfold isSucc; rw [hv]; rfl)
    have hc1 : ¬(t.Size = 0 ∨ t.Size > AI_MEMORY_POOL_SIZE) := by
      rw [hsize]
      push_neg
      exact ⟨hB0, by omega⟩
    have hsmall : c.1.UsedSize + t.Size < U64MOD := by
      have h2 := two_pool_lt_u64
      have h3 := hmul hcnt
      rw [hused, hsize]
      omega
    have hc2 : ¬ add64 c.1.UsedSize t.Size > AI_MEMORY_POOL_SIZE := by
      rw [add64_eq_of_lt hsmall, hused, hsize]
      have h3 := hmul hcnt
      omega
    have hstep : stepThread c.1 t = (c.1, { t with pc := TPC.acquire }) := by
      unfold stepThread
      rw [hv]
      rw [if_neg hc1, if_neg hc2]
    rw [hstep]
    show ConcInv N B (c.1, c.2.set i { t with pc := TPC.acquire })
    have hcs := countSucc_set (t := t) { t with pc := TPC.acquire } hget
    have hf1 : isSucc t = false := by unfold isSucc; rw [hv]; rfl
    have hf2 : isSucc { t with pc := TPC.acquire } = false := rfl
    rw [hf1, hf2] at hcs
    have heq : countSucc (c.2.set i { t with pc := TPC.acquire }) =
        countSucc c.2 := by omega
    refine ⟨by rw [List.length_set]; exact hlen, ?_, ?_, htot⟩
    · intro u hu
      rcases hmemset _ u hu with h | h
      · exact h
      · rw [h]
        exact ⟨hsize, hgood, Or.inr (Or.inl rfl)⟩
    · show c.1.UsedSize = B * countSucc (c.2.set i { t with pc := TPC.acquire })
      rw [hused, heq]
  · -- acquire: all three acquisitions succeed
    have hc : ¬(t.env.bufferAddr = 0 ∨ t.env.mdlPtr = 0 ∨ t.env.entryPtr = 0) := by
      push_neg
      exact hgood
    have hstep : stepThread c.1 t = (c.1, { t with pc := TPC.insertEntry }) := by
      unfold stepThread
      rw [ha]
      rw [if_neg hc]
    rw [hstep]
    show ConcInv N B (c.1, c.2.set i { t with pc := TPC.insertEntry })
    have hcs := countSucc_set (t := t) { t with pc := TPC.insertEntry } hget
    have hf1 : isSucc t = false := by unfold isSucc; rw [ha]; rfl
    have hf2 : isSucc { t with pc := TPC.insertEntry } = false := rfl
    rw [hf1, hf2] at hcs
    have heq : countSucc (c.2.set i { t with pc := TPC.insertEntry }) =
        countSucc c.2 := by omega
    refine ⟨by rw [List.length_set]; exact hlen, ?_, ?_, htot⟩
    · intro u hu
      rcases hmemset _ u hu with h | h
      · exact h
      · rw [h]
        exact ⟨hsize, hgood, Or.inr (Or.inr (Or.inl rfl))⟩
    · show c.1.UsedSize = B * countSucc (c.2.set i { t with pc := TPC.insertEntry })
      rw [hused, heq]
  · -- insertEntry: the list changes, the counters do not
    have hstep : stepThread c.1 t =
        ({ c.1 with records := c.1.records ++
            [⟨t.env.bufferAddr, t.Size, t.env.bufferAddr, t.env.mdlPtr⟩] },
         { t with pc := TPC.updateStats }) := by
      unfold stepThread
      rw [hi]
    rw [hstep]
    show ConcInv N B
      ({ c.1 with records := c.1.records ++
          [⟨t.env.bufferAddr, t.Size, t.env.bufferAddr, t.env.mdlPtr⟩] },
       c.2.set i { t with pc := TPC.updateStats })
    have hcs := countSucc_set (t := t) { t with pc := TPC.updateStats } hget
    have hf1 : isSucc t = false := by unfold isSucc; rw [hi]; rfl
    have hf2 : isSucc { t with pc := TPC.updateStats } = false := rfl
    rw [hf1, hf2] at hcs
    have heq : countSucc (c.2.set i { t with pc := TPC.updateStats }) =
        countSucc c.2 := by omega
    refine ⟨by rw [List.length_set]; exact hlen, ?_, ?_, htot⟩
    · intro u hu
      rcases hmemset _ u hu with h | h
      · exact h
      · rw [h]
        exact ⟨hsize, hgood, Or.inr (Or.inr (Or.inr (Or.inl rfl)))⟩
    · show c.1.UsedSize = B * countSucc (c.2.set i { t with pc := TPC.updateStats })
      rw [hused, heq]
  · -- updateStats: UsedSize grows by B and the thread succeeds
    have hcnt : countSucc c.2 < N := by
      rw [← hlen]
      exact countSucc_lt_of_not hget (by unfold isSucc; rw [hu]; rfl)
    have hsmall : c.1.UsedSize + t.Size < U64MOD := by
      have h2 := two_pool_lt_u64
      have h3 := hmul hcnt
      rw [hused, hsize]
      omega
    have hstep : stepThread c.1 t =
        ({ c.1 with
            UsedSize := add64 c.1.UsedSize t.Size
            FreeSize := sub64 c.1.TotalSize (add64 c.1.UsedSize t.Size)
            FragmentationRatio := add64 c.1.UsedSize t.Size % 4096 },
         { t with pc := TPC.done STATUS_SUCCESS }) := by
      unfold stepThread
      rw [hu]
    rw [hstep]
    show ConcInv N B
      ({ c.1 with
          UsedSize := add64 c.1.UsedSize t.Size
          FreeSize := sub64 c.1.TotalSize (add64 c.1.UsedSize t.Size)
          FragmentationRatio := add64 c.1.UsedSize t.Size % 4096 },
       c.2.set i { t with pc := TPC.done STATUS_SUCCESS })
    have hcs := countSucc_set (t := t) { t with pc := TPC.done STATUS_SUCCESS } hget
    have hf1 : isSucc t = false := by unfold isSucc; rw [hu]; rfl
    have hf2 : isSucc { t with pc := TPC.done STATUS_SUCCESS } = true := rfl
    rw [hf1, hf2] at hcs
    have hif0 : (if (false : Bool) = true then 1 else 0) = 0 := rfl
    have hif1 : (if (true : Bool) = true then 1 else 0) = 1 := rfl
    rw [hif0, hif1] at hcs
    have hset : countSucc (c.2.set i { t with pc := TPC.done STATUS_SUCCESS }) =
        countSucc c.2 + 1 := by omega
    refine ⟨by rw [List.length_set]; exact hlen, ?_, ?_, htot⟩
    · intro u hu'
      rcases hmemset _ u hu' with h | h
      · exact h
      · rw [h]
        exact ⟨hsize, hgood, Or.inr (Or.inr (Or.inr (Or.inr rfl)))⟩
    · show add64 c.1.UsedSize t.Size =
        B * countSucc (c.2.set i { t with pc := TPC.done STATUS_SUCCESS })
      rw [add64_eq_of_lt hsmall, hused, hset, hsize, Nat.mul_succ]
  · -- done: a finished thread steps to itself
    have hstep : stepThread c.1 t = (c.1, t) := by
      unfold stepThread
      rw [hd]
    rw [hstep]
    show ConcInv N B (c.1, c.2.set i t)
    have hcs := countSucc_set (t := t) t hget
    have heq : countSucc (c.2.set i t) = countSucc c.2 := by omega
    refine ⟨by rw [List.length_set]; exact hlen, ?_, ?_, htot⟩
    · intro u hu
      rcases hmemset _ u hu with h | h
      · exact h
      · rw [h]
        exact ⟨hsize, hgood, Or.inr (Or.inr (Or.inr (Or.inr hd)))⟩
    · show c.1.UsedSize = B * countSucc (c.2.set i t)
      rw [hused, heq]

theorem concInv_run (N B : Nat) (hB0 : B ≠ 0)
    (hNB : N * B ≤ AI_MEMORY_POOL_SIZE) (sched : List Nat)
    {c : DriverState × List AllocThread} (h : ConcInv N B c) :
    ConcInv N B (runSched sched c) := by
  induction sched generalizing c with
  | nil => exact h
  | cons i rest ih => exact ih (concInv_step N B hB0 hNB h i)

theorem concInv_init (N B : Nat) (envs : Nat → AllocEnv)
    (hgood : ∀ i, goodEnv (envs i)) :
    ConcInv N B (initState, initThreads N B envs) := by
  refine ⟨by simp [initThreads], ?_, ?_, rfl⟩
  · intro t ht
    simp only [initThreads, List.mem_map] at ht
    obtain ⟨i, -, rfl⟩ := ht
    exact ⟨rfl, hgood i, Or.inl rfl⟩
  · show initState.UsedSize = B * countSucc (initThreads N B envs)
    have hz : countSucc (initThreads N B envs) = 0 := by
      unfold countSucc
      rw [List.countP_eq_zero]
      intro t ht
      simp only [initThreads, List.mem_map] at ht
      obtain ⟨i, -, rfl⟩ := ht
      simp [isSucc]
    rw [hz, Nat.mul_zero]
    rfl

/-- Claim C9 as stated is false: the capacity check of
AllocatePinnedMemory (read of UsedSize, no lock held) is NOT atomic with
the reservation (UsedSize += Size under g_StatsLock, after the backing
acquisitions).  Concrete input: two threads each allocating
AI_MEMORY_POOL_SIZE bytes on the empty pool.  Under either serialized
order (schedules [0,0,0,0,1] and [1,1,1,1,0]) exactly one succeeds, the
other fails STATUS_INSUFFICIENT_RESOURCES, and used stays at capacity;
under the interleaving [0,1,0,0,0,1,1,1] (both pass the check before
either reserves) BOTH succeed and used reaches 2 × capacity, violating
used ≤ capacity — an outcome no atomic check-and-reserve could
produce. -/
theorem c9_counterexample :
    (runSched [0, 1, 0, 0, 0, 1, 1, 1]
      (initState,
        [⟨TPC.validate, AI_MEMORY_POOL_SIZE, ⟨1, 2, 3⟩⟩,
         ⟨TPC.validate, AI_MEMORY_POOL_SIZE, ⟨4, 5, 6⟩⟩])).2 =
      [⟨TPC.done STATUS_SUCCESS, AI_MEMORY_POOL_SIZE, ⟨1, 2, 3⟩⟩,
       ⟨TPC.done STATUS_SUCCESS, AI_MEMORY_POOL_SIZE, ⟨4, 5, 6⟩⟩] ∧
    (runSched [0, 1, 0, 0, 0, 1, 1, 1]
      (initState,
        [⟨TPC.validate, AI_MEMORY_POOL_SIZE, ⟨1, 2, 3⟩⟩,
         ⟨TPC.validate, AI_MEMORY_POOL_SIZE, ⟨4, 5, 6⟩⟩])).1.UsedSize =
      2 * AI_MEMORY_POOL_SIZE ∧
    2 * AI_MEMORY_POOL_SIZE > AI_MEMORY_POOL_SIZE ∧
    (runSched [0, 0, 0, 0, 1]
      (initState,
        [⟨TPC.validate, AI_MEMORY_POOL_SIZE, ⟨1, 2, 3⟩⟩,
         ⟨TPC.validate, AI_MEMORY_POOL_SIZE, ⟨4, 5, 6⟩⟩])).2 =
      [⟨TPC.done STATUS_SUCCESS, AI_MEMORY_POOL_SIZE, ⟨1, 2, 3⟩⟩,
       ⟨TPC.done STATUS_INSUFFICIENT_RESOURCES, AI_MEMORY_POOL_SIZE, ⟨4, 5, 6⟩⟩] ∧
    (runSched [0, 0, 0, 0, 1]
      (initState,
        [⟨TPC.validate, AI_MEMORY_POOL_SIZE, ⟨1, 2, 3⟩⟩,
         ⟨TPC.validate, AI_MEMORY_POOL_SIZE, ⟨4, 5, 6⟩⟩])).1.UsedSize =
      AI_MEMORY_POOL_SIZE ∧
    (runSched [1, 1, 1, 1, 0]
      (initState,
        [⟨TPC.validate, AI_MEMORY_POOL_SIZE, ⟨1, 2, 3⟩⟩,
         ⟨TPC.validate, AI_MEMORY_POOL_SIZE, ⟨4, 5, 6⟩⟩])).2 =
      [⟨TPC.done STATUS_INSUFFICIENT_RESOURCES, AI_MEMORY_POOL_SIZE, ⟨1, 2, 3⟩⟩,
       ⟨TPC.done STATUS_SUCCESS, AI_MEMORY_POOL_SIZE, ⟨4, 5, 6⟩⟩] ∧
    (runSched [1, 1, 1, 1, 0]
      (initState,
        [⟨TPC.validate, AI_MEMORY_POOL_SIZE, ⟨1, 2, 3⟩⟩,
         ⟨TPC.validate, AI_MEMORY_POOL_SIZE, ⟨4, 5, 6⟩⟩])).1.UsedSize =
      AI_MEMORY_POOL_SIZE :=
  ⟨by decide, by decide, by decide, by decide, by decide, by decide, by decide⟩

/-- Claim C9 (amended): the reservation itself (UsedSize update) is
performed under the stats lock, so for the claim's workload — N threads
each performing one Allocate of capacity/N bytes on the empty pool, all
backing acquisitions succeeding — EVERY interleaving that runs all
threads to completion ends with exactly N successes and
used == capacity, with no lost updates; the capacity check, however, is
not atomic with the reservation (see the counterexample). -/
theorem c9_concurrent_allocate_amended (N : Nat) (envs : Nat → AllocEnv)
    (hN : 0 < N) (hdvd : N ∣ AI_MEMORY_POOL_SIZE)
    (hle : N ≤ AI_MEMORY_POOL_SIZE)
    (hgood : ∀ i, goodEnv (envs i)) (sched : List Nat)
    (hdone : ∀ t ∈ (runSched sched
        (initState, initThreads N (AI_MEMORY_POOL_SIZE / N) envs)).2,
      isDone t = true) :
    (∀ t ∈ (runSched sched
        (initState, initThreads N (AI_MEMORY_POOL_SIZE / N) envs)).2,
      t.pc = TPC.done STATUS_SUCCESS) ∧
    (runSched sched
        (initState, initThreads N (AI_MEMORY_POOL_SIZE / N) envs)).1.UsedSize =
      AI_MEMORY_POOL_SIZE := by
  have hB0 : AI_MEMORY_POOL_SIZE / N ≠ 0 := by
    have h1 : 1 ≤ AI_MEMORY_POOL_SIZE / N :=
      (Nat.le_div_iff_mul_le hN).mpr (by omega)
    omega
  have hNB : N * (AI_MEMORY_POOL_SIZE / N) = AI_MEMORY_POOL_SIZE :=
    Nat.mul_div_cancel' hdvd
  have hinv := concInv_run N (AI_MEMORY_POOL_SIZE / N) hB0 (le_of_eq hNB) sched
    (concInv_init N (AI_MEMORY_POOL_SIZE / N) envs hgood)
  obtain ⟨hlen, hok, hused, -⟩ := hinv
  have hall : ∀ t ∈ (runSched sched
      (initState, initThreads N (AI_MEMORY_POOL_SIZE / N) envs)).2,
      t.pc = TPC.done STATUS_SUCCESS := by
    intro t ht
    have hdt := hdone t ht
    obtain ⟨-, -, hpc⟩ := hok t ht
    rcases hpc with h | h | h | h | h
    · rw [show isDone t = false from by unfold isDone; rw [h]] at hdt
      exact Bool.noConfusion hdt
    · rw [show isDone t = false from by unfold isDone; rw [h]] at hdt
      exact Bool.noConfusion hdt
    · rw [show isDone t = false from by unfold isDone; rw [h]] at hdt
      exact Bool.noConfusion hdt
    · rw [show isDone t = false from by unfold isDone; rw [h]] at hdt
      exact Bool.noConfusion hdt
    · exact h
  refine ⟨hall, ?_⟩
  have hcnt : countSucc (runSched sched
      (initState, initThreads N (AI_MEMORY_POOL_SIZE / N) envs)).2 = N := by
    have hfull : List.countP isSucc (runSched sched
        (initState, initThreads N (AI_MEMORY_POOL_SIZE / N) envs)).2 =
        (runSched sched
          (initState, initThreads N (AI_MEMORY_POOL_SIZE / N) envs)).2.length := by
      rw [List.countP_eq_length]
      intro t ht
      unfold isSucc
      rw [hall t ht]
      rfl
    unfold countSucc
    rw [hfull, hlen]
  rw [hused, hcnt, Nat.mul_comm, hNB]

/-- Witness for C9 (amended): a single thread allocating the whole
capacity, run to completion, succeeds and fills the pool. -/
theorem c9_concurrent_allocate_amended_witness :
    (∀ t ∈ (runSched [0, 0, 0, 0]
        (initState,
          initThreads 1 (AI_MEMORY_POOL_SIZE / 1) (fun _ => ⟨1, 2, 3⟩))).2,
      t.pc = TPC.done STATUS_SUCCESS) ∧
    (runSched [0, 0, 0, 0]
        (initState,
          initThreads 1 (AI_MEMORY_POOL_SIZE / 1) (fun _ => ⟨1, 2, 3⟩))).1.UsedSize =
      AI_MEMORY_POOL_SIZE :=
  c9_concurrent_allocate_amended 1 (fun _ => ⟨1, 2, 3⟩) (by decide) (by decide)
    (by decide) (fun i => (by decide : goodEnv ⟨1, 2, 3⟩)) [0, 0, 0, 0] (by decide)
